import Mathlib

/-!
Verification of the max-value entropy search (MES) generation pipeline
(`ax/models/torch/botorch_mes.py`) and of the runtime type-check utilities
(`ax/utils/common/typeutils.py`).

The Python code is shallowly embedded: dictionaries whose keys are fixed by
the code become structures of `Option` fields (`none` = key absent), machine
floats become `ℚ`, tensors become lists, and the external collaborators that
carry the numerics (the uniform sampler behind `torch.rand` and the botorch
`optimize_acqf` optimizer) become oracle parameters of `gen`.  `gen` also
returns the list of collaborator calls it made (an event trace) so that
ordering properties are statable, and threads the object state through so
that frame properties are statable.
-/

set_option autoImplicit false

abbrev Point := List ℚ

abbrev Bounds := List (ℚ × ℚ)

/-- A Python `Dict[int, float]` as an association list. -/
abbrev FidelityDict := List (Nat × ℚ)

/-- The Python exceptions raised by the embedded code.  `unsupportedError`
is botorch's `UnsupportedError`; `runtimeError`, `valueError` and
`indexError` are the builtins. -/
inductive PyException where
  | unsupportedError (msg : String)
  | runtimeError (msg : String)
  | valueError (msg : String)
  | indexError
  | otherException (tag : String)
deriving DecidableEq

/-- Embedding of `not_none` (src/ax/utils/common/typeutils.py, lines 20-34):
return `val` unchanged when it is not `None`, raise `ValueError` (with the
default or the overridden message) when it is `None`. -/
def not_none {α : Type} (val : Option α) (message : Option String) :
    Except PyException α :=
  match val with
  | none =>
      Except.error (PyException.valueError
        (message.getD ("Argument to not_none was None.")))
  | some v => Except.ok v

/-- Embedding of `checked_cast` (src/ax/utils/common/typeutils.py, lines
37-61): the runtime class `typ` is modelled by its `isinstance` predicate
`isinst`.  Returns `val` unchanged (no conversion) when the check passes,
otherwise raises the supplied exception, or `ValueError` when none was
supplied.  The interpolated `typ`/`val` reprs in the message are elided. -/
def checked_cast {α : Type} (isinst : α → Bool) (val : α)
    (exception : Option PyException) : Except PyException α :=
  if isinst val then Except.ok val
  else
    Except.error
      (match exception with
       | some e => e
       | none => PyException.valueError ("Value was not of type typ."))

/-- Keys of a Python dict, in iteration order. -/
def dictKeys (d : FidelityDict) : List Nat :=
  d.map Prod.fst

/-- Python `set(a) == set(b)` on key lists. -/
def keySetEq (a b : List Nat) : Bool :=
  a.all (fun k => b.contains k) && b.all (fun k => a.contains k)

/-- Python truthiness of an `Optional[Dict]`: `None` and the empty dict are
falsy. -/
def dictTruthy (d : Option FidelityDict) : Bool :=
  match d with
  | none => false
  | some l => !l.isEmpty

/-- A (view of a) surrogate model: the outcome indices it exposes.  The
posterior itself is irrelevant to every claim, so it is not modelled. -/
structure Model where
  outputs : List Nat
deriving DecidableEq

/-- botorch `AffineFidelityCostModel(fidelity_weights, fixed_cost)`. -/
structure AffineFidelityCostModel where
  fidelity_weights : FidelityDict
  fixed_cost : ℚ
deriving DecidableEq

/-- botorch `InverseCostWeightedUtility(cost_model)`. -/
structure InverseCostWeightedUtility where
  cost_model : AffineFidelityCostModel
deriving DecidableEq

/-- The `project` closure of `_instantiate_MES` (lines 240-241),
defunctionalised: it captures `target_fidelities`. -/
structure ProjectClosure where
  target_fidelities : FidelityDict
deriving DecidableEq

/-- The `expand` closure of `_instantiate_MES` (lines 243-248),
defunctionalised: it captures `sorted(target_fidelities)` and
`num_trace_observations`. -/
structure ExpandClosure where
  fidelity_dims : List Nat
  num_trace_obs : Nat
deriving DecidableEq

/-- The two acquisition functions `_instantiate_MES` can build: the standard
`qMaxValueEntropy` and the cost-aware `qMultiFidelityMaxValueEntropy`. -/
inductive MESAcqf where
  | qMaxValueEntropy (model : Model) (candidate_set : List Point)
      (num_fantasies : Nat) (num_mv_samples : Nat) (num_y_samples : Nat)
      (X_pending : Option (List Point)) (maximize : Bool)
  | qMultiFidelityMaxValueEntropy (model : Model) (candidate_set : List Point)
      (num_fantasies : Nat) (num_mv_samples : Nat) (num_y_samples : Nat)
      (X_pending : Option (List Point)) (maximize : Bool)
      (cost_aware_utility : InverseCostWeightedUtility)
      (project : ProjectClosure) (expand : ExpandClosure)
deriving DecidableEq

/-- Whether the built acquisition function is the cost-aware multi-fidelity
variant. -/
def MESAcqf.isMultiFidelity : MESAcqf → Bool
  | .qMaxValueEntropy _ _ _ _ _ _ _ => false
  | .qMultiFidelityMaxValueEntropy _ _ _ _ _ _ _ _ _ _ => true

/-- The `maximize` flag the acquisition function was built with. -/
def MESAcqf.maximizeFlag : MESAcqf → Bool
  | .qMaxValueEntropy _ _ _ _ _ _ m => m
  | .qMultiFidelityMaxValueEntropy _ _ _ _ _ _ m _ _ _ => m

/-- The trace-observation count captured by the `expand` closure (multi-
fidelity variant only). -/
def MESAcqf.numTraceObs : MESAcqf → Option Nat
  | .qMaxValueEntropy _ _ _ _ _ _ _ => none
  | .qMultiFidelityMaxValueEntropy _ _ _ _ _ _ _ _ _ e => some e.num_trace_obs

/-- The fidelity weights held by the cost model (multi-fidelity variant
only). -/
def MESAcqf.fidelityWeightsUsed : MESAcqf → Option FidelityDict
  | .qMaxValueEntropy _ _ _ _ _ _ _ => none
  | .qMultiFidelityMaxValueEntropy _ _ _ _ _ _ _ u _ _ =>
      some u.cost_model.fidelity_weights

/-- The model the acquisition function was built over. -/
def MESAcqf.modelOf : MESAcqf → Model
  | .qMaxValueEntropy m _ _ _ _ _ _ => m
  | .qMultiFidelityMaxValueEntropy m _ _ _ _ _ _ _ _ _ => m

/-- Embedding of `_instantiate_MES` (src/ax/models/torch/botorch_mes.py,
lines 212-271).  The `RuntimeError` message elides the interpolated key
sets. -/
def _instantiate_MES (model : Model) (candidate_set : List Point)
    (num_fantasies : Nat) (num_mv_samples : Nat) (num_y_samples : Nat)
    (X_pending : Option (List Point)) (maximize : Bool)
    (num_trace_observations : Nat)
    (target_fidelities : Option FidelityDict)
    (fidelity_weights : Option FidelityDict)
    (cost_intercept : ℚ) : Except PyException MESAcqf :=
  if dictTruthy target_fidelities then
    let tf := target_fidelities.getD []
    let fw :=
      match fidelity_weights with
      | none => tf.map (fun p => (p.1, (1 : ℚ)))
      | some w => w
    if !keySetEq (dictKeys tf) (dictKeys fw) then
      Except.error (PyException.runtimeError
        ("Must provide the same indices for target_fidelities and fidelity_weights."))
    else
      let cost_model : AffineFidelityCostModel := ⟨fw, cost_intercept⟩
      let cost_aware_utility : InverseCostWeightedUtility := ⟨cost_model⟩
      let project : ProjectClosure := ⟨tf⟩
      let expand : ExpandClosure :=
        ⟨List.insertionSort (· ≤ ·) (dictKeys tf), num_trace_observations⟩
      Except.ok (MESAcqf.qMultiFidelityMaxValueEntropy model candidate_set
        num_fantasies num_mv_samples num_y_samples X_pending maximize
        cost_aware_utility project expand)
  else
    Except.ok (MESAcqf.qMaxValueEntropy model candidate_set num_fantasies
      num_mv_samples num_y_samples X_pending maximize)

/-- The `acquisition_function_kwargs` sub-dict of `model_gen_options`,
restricted to the keys the module reads or the spec documents; `none` means
the key is absent. -/
structure AcfOptions where
  num_fantasies : Option Nat
  num_mv_samples : Option Nat
  num_y_samples : Option Nat
  candidate_size : Option Nat
  num_trace_observations : Option Nat
  fidelity_weights : Option FidelityDict
  subset_model : Option Bool
deriving DecidableEq

/-- The empty `acquisition_function_kwargs` dict. -/
def AcfOptions.empty : AcfOptions :=
  ⟨none, none, none, none, none, none, none⟩

/-- The `options` sub-dict of `optimizer_kwargs`. -/
structure OptOptions where
  batch_limit : Option Nat
  maxiter : Option Nat
  method : Option String
  nonnegative : Option Bool
deriving DecidableEq

/-- The empty `options` dict. -/
def OptOptions.empty : OptOptions :=
  ⟨none, none, none, none⟩

/-- The `optimizer_kwargs` sub-dict of `model_gen_options`. -/
structure OptimizerKwargs where
  num_restarts : Option Nat
  raw_samples : Option Nat
  options : Option OptOptions
deriving DecidableEq

/-- The empty `optimizer_kwargs` dict. -/
def OptimizerKwargs.empty : OptimizerKwargs :=
  ⟨none, none, none⟩

/-- The `model_gen_options` dict, restricted to the keys `gen` reads.  Note
that the code reads `subset_model`, `num_trace_observations` and
`fidelity_weights` from this top level (lines 105, 142, 148), while the
nested `acquisition_function_kwargs` dict also has slots for those keys. -/
structure GenOptions where
  acquisition_function_kwargs : Option AcfOptions
  optimizer_kwargs : Option OptimizerKwargs
  subset_model : Option Bool
  num_trace_observations : Option Nat
  fidelity_weights : Option FidelityDict
deriving DecidableEq

/-- The empty `model_gen_options` dict. -/
def GenOptions.empty : GenOptions :=
  ⟨none, none, none, none, none⟩

/-- `SearchSpaceDigest`, restricted to the fields `gen` reads: per-dimension
bounds, fidelity-feature indices, and the target-value mapping. -/
structure SearchSpaceDigest where
  bounds : Bounds
  fidelity_features : List Nat
  target_values : FidelityDict
deriving DecidableEq

/-- `TorchOptConfig`, restricted to the fields `gen` reads.  The payloads of
the constraint fields are irrelevant (the code only tests them against
`None`), so they are `Option Unit`. -/
structure TorchOptConfig where
  objective_weights : List ℚ
  outcome_constraints : Option Unit
  linear_constraints : Option Unit
  fixed_features : Option (List (Nat × ℚ))
  pending_observations : Option (List Point)
  model_gen_options : Option GenOptions
  rounding_func : Option Unit
deriving DecidableEq

/-- The solver options after `opt_options.update(...)` (lines 154-160):
hard-coded defaults overridden by the caller-supplied `options` dict. -/
structure ResolvedOptOptions where
  batch_limit : Nat
  maxiter : Nat
  method : String
  nonnegative : Bool
deriving DecidableEq

/-- Lines 154-160 of `gen`: defaults `batch_limit=8`, `maxiter=200`,
`method=L-BFGS-B`, `nonnegative=False`, updated by the supplied dict. -/
def updateOptOptions (o : OptOptions) : ResolvedOptOptions :=
  ⟨o.batch_limit.getD 8, o.maxiter.getD 200, o.method.getD ("L-BFGS-B"),
    o.nonnegative.getD false⟩

/-- The argument record of the external `optimize_acqf` call (lines
161-172). -/
structure OptimizeAcqfCall where
  acq_function : MESAcqf
  bounds : Bounds
  q : Nat
  fixed_features : Option (List (Nat × ℚ))
  post_processing_func : Option Unit
  num_restarts : Nat
  raw_samples : Nat
  options : ResolvedOptOptions
  sequential : Bool
deriving DecidableEq

/-- Collaborator calls `gen` makes, recorded in order. -/
inductive Event where
  | subset_model_call
  | sample_candidate_set
  | instantiate_acqf
  | optimize_call
deriving DecidableEq

/-- Result record of `subset_model`. -/
structure SubsetModelResults where
  model : Model
  objective_weights : List ℚ
deriving DecidableEq

/-- Modelled from the spec: `subset_model` (imported from
`ax.models.torch.utils`, which is not under src/).  Spec 4.1: "given a
surrogate model with possibly many outcomes, objective weights (length =
number of outcomes), and outcome constraints, return a model restricted to
only the outcomes required to evaluate the objective (and constraints, if
any), plus the corresponding reduced objective-weight vector.  Side effect:
none beyond constructing a new model view; the original model is
untouched."  With constraints absent (the only case `gen` allows), the
outcomes required to evaluate the objective are exactly those carrying a
nonzero objective weight. -/
def subset_model (model : Model) (objective_weights : List ℚ)
    (outcome_constraints : Option Unit) : SubsetModelResults :=
  match outcome_constraints with
  | some _ => ⟨model, objective_weights⟩
  | none =>
      let idcs := (List.range objective_weights.length).filter
        (fun i => decide (objective_weights.getD i 0 ≠ 0))
      ⟨⟨idcs.filterMap (fun i => model.outputs.get? i)⟩,
        idcs.filterMap (fun i => objective_weights.get? i)⟩

/-- Modelled from the spec: `_get_X_pending_and_observed` (imported from
`ax.models.torch.utils`, which is not under src/).  Spec 3 and 4.3: the
configuration carries "optional already-pending candidate points" which
become the "pending points to condition on"; the observed points are drawn
from the training inputs. -/
def _get_X_pending_and_observed (Xs : List (List Point))
    (pending_observations : Option (List Point)) :
    Option (List Point) × Option (List Point) :=
  (pending_observations, Xs.head?)

/-- Lines 125-131 of `gen`: the raw uniform draws are rescaled per dimension
into `bounds[0] + (bounds[1] - bounds[0]) * rand`. -/
def scaleCandidates (bounds : Bounds) (raw : List Point) : List Point :=
  raw.map (fun row => (bounds.zip row).map
    (fun p => p.1.1 + (p.1.2 - p.1.1) * p.2))

/-- Line 133-137 of `gen`: the sub-dict of `target_values` restricted to the
fidelity features. -/
def targetFidelitiesOf (ssd : SearchSpaceDigest) : FidelityDict :=
  ssd.target_values.filter (fun p => ssd.fidelity_features.contains p.1)

/-- The fields of the `MaxValueEntropySearch` object that `gen` reads. -/
structure MaxValueEntropySearchState where
  cost_intercept : ℚ
  Xs : List (List Point)
  model : Model
deriving DecidableEq

/-- The data a successful `gen` call produces: the `TorchGenResults` fields
(`points`, `weights`) plus the locals a claim observes (the acquisition
function built, and the model and weights actually used after optional
subsetting). -/
structure GenOutput where
  points : List Point
  weights : List ℚ
  acqf : MESAcqf
  model_used : Model
  objective_weights_used : List ℚ
deriving DecidableEq

instance {ε α : Type} [DecidableEq ε] [DecidableEq α] :
    DecidableEq (Except ε α) :=
  fun a b =>
    match a, b with
    | Except.ok x, Except.ok y =>
        if h : x = y then Decidable.isTrue (congrArg Except.ok h)
        else Decidable.isFalse (fun c => h (Except.ok.inj c))
    | Except.error x, Except.error y =>
        if h : x = y then Decidable.isTrue (congrArg Except.error h)
        else Decidable.isFalse (fun c => h (Except.error.inj c))
    | Except.ok _, Except.error _ =>
        Decidable.isFalse (fun c => Except.noConfusion c)
    | Except.error _, Except.ok _ =>
        Decidable.isFalse (fun c => Except.noConfusion c)

/-- A full `gen` run: the ordered collaborator-call trace, the object state
after the call, and the result or the exception raised. -/
structure GenRun where
  events : List Event
  state : MaxValueEntropySearchState
  result : Except PyException GenOutput
deriving DecidableEq

/-- Line 88 of `gen`: `options = torch_opt_config.model_gen_options or {}`. -/
def genOptionsOf (toc : TorchOptConfig) : GenOptions :=
  toc.model_gen_options.getD GenOptions.empty

/-- Line 89 of `gen`: the `acquisition_function_kwargs` sub-dict. -/
def genAcfOptions (toc : TorchOptConfig) : AcfOptions :=
  (genOptionsOf toc).acquisition_function_kwargs.getD AcfOptions.empty

/-- Line 90 of `gen`: the `optimizer_kwargs` sub-dict. -/
def genOptimizerKwargs (toc : TorchOptConfig) : OptimizerKwargs :=
  (genOptionsOf toc).optimizer_kwargs.getD OptimizerKwargs.empty

/-- Lines 102-114 of `gen`: the model and objective weights after the
optional subsetting, plus the `subset_model` collaborator call made (note
the `subset_model` flag is read from the top-level options dict, line
105). -/
def genSubsetStage (self : MaxValueEntropySearchState)
    (toc : TorchOptConfig) : Model × List ℚ × List Event :=
  if (genOptionsOf toc).subset_model.getD true then
    let r := subset_model self.model toc.objective_weights
      toc.outcome_constraints
    (r.model, r.objective_weights, [Event.subset_model_call])
  else
    (self.model, toc.objective_weights, ([] : List Event))

/-- Lines 120 and 125-131 of `gen`: the discrete candidate set, drawn by the
`torch.rand` oracle and rescaled into the bounds. -/
def genCandidateSet (sampler : Nat → Nat → List Point)
    (ssd : SearchSpaceDigest) (toc : TorchOptConfig) : List Point :=
  scaleCandidates ssd.bounds
    (sampler ((genAcfOptions toc).candidate_size.getD 1000) ssd.bounds.length)

/-- Lines 117-150 of `gen`: the `_instantiate_MES` call, `w0` being
`objective_weights[0]` after the optional subsetting (the `maximize`
argument is `True if objective_weights[0] == 1 else False`, line 146;
`num_trace_observations` and `fidelity_weights` are read from the top-level
options dict, lines 142 and 148). -/
def genAcqf (self : MaxValueEntropySearchState)
    (sampler : Nat → Nat → List Point) (ssd : SearchSpaceDigest)
    (toc : TorchOptConfig) (w0 : ℚ) : Except PyException MESAcqf :=
  _instantiate_MES (genSubsetStage self toc).1 (genCandidateSet sampler ssd toc)
    ((genAcfOptions toc).num_fantasies.getD 16)
    ((genAcfOptions toc).num_mv_samples.getD 10)
    ((genAcfOptions toc).num_y_samples.getD 128)
    (_get_X_pending_and_observed self.Xs toc.pending_observations).1
    (decide (w0 = 1))
    ((genOptionsOf toc).num_trace_observations.getD 0)
    (some (targetFidelitiesOf ssd))
    ((genOptionsOf toc).fidelity_weights)
    self.cost_intercept

/-- Lines 121-122 and 152-172 of `gen`: the argument record of the
`optimize_acqf` call. -/
def genOptCall (ssd : SearchSpaceDigest) (toc : TorchOptConfig) (n : Nat)
    (acq_function : MESAcqf) : OptimizeAcqfCall :=
  ⟨acq_function, ssd.bounds, n, toc.fixed_features, toc.rounding_func,
    (genOptimizerKwargs toc).num_restarts.getD 40,
    (genOptimizerKwargs toc).raw_samples.getD 1024,
    updateOptOptions ((genOptimizerKwargs toc).options.getD OptOptions.empty),
    true⟩

/-- Lines 88-176 of `gen`: everything after the validation checks.  The
index lookup `objective_weights[0]` happens while the `_instantiate_MES`
arguments are evaluated (line 146), after the candidate set was sampled. -/
def genBody (self : MaxValueEntropySearchState)
    (sampler : Nat → Nat → List Point)
    (optimizer : OptimizeAcqfCall → List Point)
    (n : Nat) (ssd : SearchSpaceDigest) (toc : TorchOptConfig) : GenRun :=
  let events1 := (genSubsetStage self toc).2.2 ++ [Event.sample_candidate_set]
  match (genSubsetStage self toc).2.1.get? 0 with
  | none => ⟨events1, self, Except.error PyException.indexError⟩
  | some w0 =>
    match genAcqf self sampler ssd toc w0 with
    | Except.error e =>
        ⟨events1 ++ [Event.instantiate_acqf], self, Except.error e⟩
    | Except.ok acq_function =>
        ⟨events1 ++ [Event.instantiate_acqf, Event.optimize_call], self,
          Except.ok ⟨optimizer (genOptCall ssd toc n acq_function),
            List.replicate n 1, acq_function, (genSubsetStage self toc).1,
            (genSubsetStage self toc).2.1⟩⟩

/-- Embedding of `MaxValueEntropySearch.gen` (src/ax/models/torch/
botorch_mes.py, lines 69-176).  `sampler` is the `torch.rand` oracle
(arguments: number of rows, dimension) and `optimizer` the botorch
`optimize_acqf` oracle. -/
def gen (self : MaxValueEntropySearchState)
    (sampler : Nat → Nat → List Point)
    (optimizer : OptimizeAcqfCall → List Point)
    (n : Nat) (search_space_digest : SearchSpaceDigest)
    (torch_opt_config : TorchOptConfig) : GenRun :=
  if torch_opt_config.linear_constraints.isSome
      || torch_opt_config.outcome_constraints.isSome then
    ⟨[], self, Except.error (PyException.unsupportedError
      ("Constraints are not yet supported by max-value entropy search!"))⟩
  else if torch_opt_config.objective_weights.length > 1 then
    ⟨[], self, Except.error (PyException.unsupportedError
      ("Models with multiple outcomes are not yet supported by MES!"))⟩
  else
    genBody self sampler optimizer n search_space_digest torch_opt_config

/-- Whether a result is a raised botorch `UnsupportedError`. -/
def raisesUnsupported {α : Type} : Except PyException α → Bool
  | Except.error (PyException.unsupportedError _) => true
  | _ => false

/-- A point lies within per-dimension box bounds. -/
def inBounds (bounds : Bounds) (x : Point) : Prop :=
  x.length = bounds.length ∧
    ∀ i, i < bounds.length →
      (bounds.getD i (0, 0)).1 ≤ x.getD i 0 ∧
        x.getD i 0 ≤ (bounds.getD i (0, 0)).2

/-- The fidelity weights `_instantiate_MES` hands to the cost model (lines
227-228): the supplied dict, or every target-fidelity key defaulted to
`1.0`. -/
def resolveFidelityWeights (tf : FidelityDict) (fw : Option FidelityDict) :
    FidelityDict :=
  match fw with
  | none => tf.map (fun p => (p.1, (1 : ℚ)))
  | some w => w

/-- The supplied fidelity weights pass the key-set check of
`_instantiate_MES` against the target fidelities `tf` (absent weights always
pass, they are defaulted). -/
def fidelityOkFor (tf : FidelityDict) (fw : Option FidelityDict) : Bool :=
  match fw with
  | none => true
  | some w => keySetEq (dictKeys tf) (dictKeys w)

/-- A configuration's fidelity weights (read from the top-level options
dict) pass the key-set check against the search space's target
fidelities. -/
def fidelityWeightsOk (ssd : SearchSpaceDigest) (toc : TorchOptConfig) :
    Bool :=
  fidelityOkFor (targetFidelitiesOf ssd) ((genOptionsOf toc).fidelity_weights)

lemma subset_model_weights_singleton (m : Model) (oc : Option Unit) (w : ℚ)
    (h : w ≠ 0) : (subset_model m [w] oc).objective_weights = [w] := by
  cases oc with
  | some u => rfl
  | none => simp [subset_model, List.range_succ, h]

lemma genSubsetStage_weights (self : MaxValueEntropySearchState)
    (toc : TorchOptConfig) (w : ℚ) (hw : toc.objective_weights = [w])
    (h : w ≠ 0) : (genSubsetStage self toc).2.1 = [w] := by
  unfold genSubsetStage
  split
  · simp [hw, subset_model_weights_singleton _ _ _ h]
  · simp [hw]

lemma genSubsetStage_disabled (self : MaxValueEntropySearchState)
    (toc : TorchOptConfig)
    (h : (genOptionsOf toc).subset_model.getD true = false) :
    genSubsetStage self toc = (self.model, toc.objective_weights, []) := by
  simp [genSubsetStage, h]

lemma genSubsetStage_event_iff (self : MaxValueEntropySearchState)
    (toc : TorchOptConfig) :
    Event.subset_model_call ∈ (genSubsetStage self toc).2.2 ↔
      (genOptionsOf toc).subset_model.getD true = true := by
  unfold genSubsetStage
  cases hb : (genOptionsOf toc).subset_model.getD true <;> simp [hb]

lemma keySetEq_self (a : List Nat) : keySetEq a a = true := by
  simp [keySetEq, List.all_eq_true]

lemma dictKeys_map_default (tf : FidelityDict) :
    dictKeys (tf.map (fun p => (p.1, (1 : ℚ)))) = dictKeys tf := by
  simp [dictKeys]

lemma instantiate_MES_ok (model : Model) (cs : List Point)
    (nf nmv nys : Nat) (xp : Option (List Point)) (mx : Bool) (nto : Nat)
    (tf : FidelityDict) (fw : Option FidelityDict) (ci : ℚ)
    (h : fidelityOkFor tf fw = true) :
    ∃ a, _instantiate_MES model cs nf nmv nys xp mx nto (some tf) fw ci =
      Except.ok a := by
  unfold _instantiate_MES
  cases htf : dictTruthy (some tf) with
  | false => simp [htf]
  | true =>
    cases fw with
    | none => simp [htf, dictKeys_map_default, keySetEq_self]
    | some w =>
        have hk : keySetEq (dictKeys tf) (dictKeys w) = true := h
        simp [htf, hk]

lemma instantiate_MES_ok_inv (model : Model) (cs : List Point)
    (nf nmv nys : Nat) (xp : Option (List Point)) (mx : Bool) (nto : Nat)
    (tf : FidelityDict) (fw : Option FidelityDict) (ci : ℚ) (a : MESAcqf)
    (h : _instantiate_MES model cs nf nmv nys xp mx nto (some tf) fw ci =
      Except.ok a) :
    a.maximizeFlag = mx ∧ a.isMultiFidelity = !tf.isEmpty ∧
      (a.isMultiFidelity = true →
        a.numTraceObs = some nto ∧
          a.fidelityWeightsUsed = some (resolveFidelityWeights tf fw)) := by
  unfold _instantiate_MES at h
  cases hemp : tf.isEmpty with
  | true =>
      have hdt : dictTruthy (some tf) = false := by simp [dictTruthy, hemp]
      rw [hdt] at h
      simp only [Bool.false_eq_true, if_false, Except.ok.injEq] at h
      subst h
      simp [MESAcqf.maximizeFlag, MESAcqf.isMultiFidelity, hemp]
  | false =>
      have hdt : dictTruthy (some tf) = true := by simp [dictTruthy, hemp]
      rw [hdt] at h
      simp only [if_true] at h
      split at h
      · exact absurd h (by simp)
      · simp only [Except.ok.injEq] at h
        subst h
        refine ⟨rfl, by simp [MESAcqf.isMultiFidelity, hemp], fun _ => ⟨rfl, ?_⟩⟩
        simp [MESAcqf.fidelityWeightsUsed, resolveFidelityWeights]

lemma targetFidelitiesOf_no_features (ssd : SearchSpaceDigest)
    (h : ssd.fidelity_features = []) : targetFidelitiesOf ssd = [] := by
  simp [targetFidelitiesOf, h]

lemma targetFidelitiesOf_ne_nil (ssd : SearchSpaceDigest) (k : Nat)
    (hk : k ∈ ssd.fidelity_features) (hv : k ∈ dictKeys ssd.target_values) :
    targetFidelitiesOf ssd ≠ [] := by
  obtain ⟨p, hp, hpk⟩ := List.mem_map.mp hv
  intro hnil
  have hmem : p ∈ targetFidelitiesOf ssd := by
    rw [targetFidelitiesOf, List.mem_filter]
    refine ⟨hp, ?_⟩
    simp [hpk, hk]
  rw [hnil] at hmem
  exact absurd hmem (List.not_mem_nil p)

lemma gen_state (self : MaxValueEntropySearchState)
    (sampler : Nat → Nat → List Point)
    (optimizer : OptimizeAcqfCall → List Point) (n : Nat)
    (ssd : SearchSpaceDigest) (toc : TorchOptConfig) :
    (gen self sampler optimizer n ssd toc).state = self := by
  unfold gen genBody
  split
  · rfl
  · split
    · rfl
    · dsimp only
      split
      · rfl
      · split <;> rfl

lemma gen_eq_genBody (self : MaxValueEntropySearchState)
    (sampler : Nat → Nat → List Point)
    (optimizer : OptimizeAcqfCall → List Point) (n : Nat)
    (ssd : SearchSpaceDigest) (toc : TorchOptConfig)
    (h1 : toc.linear_constraints = none) (h2 : toc.outcome_constraints = none)
    (h3 : toc.objective_weights.length ≤ 1) :
    gen self sampler optimizer n ssd toc =
      genBody self sampler optimizer n ssd toc := by
  have hb : (toc.linear_constraints.isSome
      || toc.outcome_constraints.isSome) = false := by simp [h1, h2]
  have hlen : ¬ toc.objective_weights.length > 1 := Nat.not_lt.mpr h3
  simp [gen, hb, hlen]

lemma genBody_run_ok (self : MaxValueEntropySearchState)
    (sampler : Nat → Nat → List Point)
    (optimizer : OptimizeAcqfCall → List Point) (n : Nat)
    (ssd : SearchSpaceDigest) (toc : TorchOptConfig) (w0 : ℚ) (acqf : MESAcqf)
    (hw : (genSubsetStage self toc).2.1.get? 0 = some w0)
    (ha : genAcqf self sampler ssd toc w0 = Except.ok acqf) :
    genBody self sampler optimizer n ssd toc =
      ⟨((genSubsetStage self toc).2.2 ++ [Event.sample_candidate_set]) ++
          [Event.instantiate_acqf, Event.optimize_call], self,
        Except.ok ⟨optimizer (genOptCall ssd toc n acqf),
          List.replicate n 1, acqf, (genSubsetStage self toc).1,
          (genSubsetStage self toc).2.1⟩⟩ := by
  simp only [genBody, hw, ha]

lemma gen_ok_inv (self : MaxValueEntropySearchState)
    (sampler : Nat → Nat → List Point)
    (optimizer : OptimizeAcqfCall → List Point) (n : Nat)
    (ssd : SearchSpaceDigest) (toc : TorchOptConfig) (out : GenOutput)
    (hok : (gen self sampler optimizer n ssd toc).result = Except.ok out) :
    toc.linear_constraints = none ∧ toc.outcome_constraints = none ∧
      toc.objective_weights.length ≤ 1 ∧
      ∃ w0 acqf, (genSubsetStage self toc).2.1.get? 0 = some w0 ∧
        genAcqf self sampler ssd toc w0 = Except.ok acqf ∧
        out = ⟨optimizer (genOptCall ssd toc n acqf), List.replicate n 1,
          acqf, (genSubsetStage self toc).1, (genSubsetStage self toc).2.1⟩ := by
  unfold gen at hok
  split at hok
  · simp at hok
  · rename_i hcon
    split at hok
    · simp at hok
    · rename_i hlen
      have h1 : toc.linear_constraints = none := by
        cases hc : toc.linear_constraints with
        | none => rfl
        | some u => rw [hc] at hcon; simp at hcon
      have h2 : toc.outcome_constraints = none := by
        cases hc : toc.outcome_constraints with
        | none => rfl
        | some u => rw [hc] at hcon; simp at hcon
      refine ⟨h1, h2, by omega, ?_⟩
      unfold genBody at hok
      split at hok
      · simp at hok
      · rename_i w0 hw
        split at hok
        · simp at hok
        · rename_i acqf ha
          refine ⟨w0, acqf, hw, ha, ?_⟩
          simp only at hok
          exact (Except.ok.inj hok).symm

lemma gen_valid_run (self : MaxValueEntropySearchState)
    (sampler : Nat → Nat → List Point)
    (optimizer : OptimizeAcqfCall → List Point) (n : Nat)
    (ssd : SearchSpaceDigest) (toc : TorchOptConfig) (w : ℚ)
    (h1 : toc.linear_constraints = none) (h2 : toc.outcome_constraints = none)
    (hw : toc.objective_weights = [w]) (hw0 : w ≠ 0)
    (hfid : fidelityWeightsOk ssd toc = true) :
    ∃ acqf, genAcqf self sampler ssd toc w = Except.ok acqf ∧
      (gen self sampler optimizer n ssd toc).result =
        Except.ok ⟨optimizer (genOptCall ssd toc n acqf),
          List.replicate n 1, acqf, (genSubsetStage self toc).1, [w]⟩ := by
  have hws : (genSubsetStage self toc).2.1 = [w] :=
    genSubsetStage_weights self toc w hw hw0
  obtain ⟨acqf, ha⟩ := instantiate_MES_ok (genSubsetStage self toc).1
    (genCandidateSet sampler ssd toc)
    ((genAcfOptions toc).num_fantasies.getD 16)
    ((genAcfOptions toc).num_mv_samples.getD 10)
    ((genAcfOptions toc).num_y_samples.getD 128)
    (_get_X_pending_and_observed self.Xs toc.pending_observations).1
    (decide (w = 1)) ((genOptionsOf toc).num_trace_observations.getD 0)
    (targetFidelitiesOf ssd) ((genOptionsOf toc).fidelity_weights)
    self.cost_intercept hfid
  have ha' : genAcqf self sampler ssd toc w = Except.ok acqf := ha
  have hget : (genSubsetStage self toc).2.1.get? 0 = some w := by
    rw [hws]; rfl
  refine ⟨acqf, ha', ?_⟩
  rw [gen_eq_genBody self sampler optimizer n ssd toc h1 h2 (by simp [hw]),
    genBody_run_ok self sampler optimizer n ssd toc w acqf hget ha', hws]

lemma instantiate_MES_error_inv (model : Model) (cs : List Point)
    (nf nmv nys : Nat) (xp : Option (List Point)) (mx : Bool) (nto : Nat)
    (tf : Option FidelityDict) (fw : Option FidelityDict) (ci : ℚ)
    (e : PyException)
    (h : _instantiate_MES model cs nf nmv nys xp mx nto tf fw ci =
      Except.error e) :
    e = PyException.runtimeError
      ("Must provide the same indices for target_fidelities and fidelity_weights.") := by
  unfold _instantiate_MES at h
  split at h
  · split at h <;> dsimp only at h <;> split at h <;>
      first
        | exact (Except.error.inj h).symm
        | simp at h
  · simp at h

lemma genBody_not_unsupported (self : MaxValueEntropySearchState)
    (sampler : Nat → Nat → List Point)
    (optimizer : OptimizeAcqfCall → List Point) (n : Nat)
    (ssd : SearchSpaceDigest) (toc : TorchOptConfig) :
    raisesUnsupported (genBody self sampler optimizer n ssd toc).result =
      false := by
  unfold genBody
  split
  · rfl
  · rename_i w0 hw
    split
    · rename_i e ha
      have he := instantiate_MES_error_inv _ _ _ _ _ _ _ _ _ _ _ _ ha
      rw [he]
      rfl
    · rfl

/-- Concrete model object for witness runs: a one-output surrogate. -/
def mesSelf : MaxValueEntropySearchState := ⟨1, [], ⟨[0]⟩⟩

/-- Concrete `torch.rand` oracle for witness runs (an empty draw). -/
def zeroSampler : Nat → Nat → List Point := fun _ _ => []

/-- Concrete `optimize_acqf` oracle for witness runs: it returns `q` copies
of the lower corner of the supplied box. -/
def cornerOptimizer : OptimizeAcqfCall → List Point :=
  fun call => List.replicate call.q (call.bounds.map Prod.fst)

/-- One-dimensional search space on `[0, 1]`, no fidelity features. -/
def ssdPlain : SearchSpaceDigest := ⟨[(0, 1)], [], []⟩

/-- One-dimensional search space on `[0, 1]` whose single dimension is a
fidelity feature with target value `1`. -/
def ssdFid : SearchSpaceDigest := ⟨[(0, 1)], [0], [(0, 1)]⟩

/-- A configuration with the given objective weights and everything else
absent. -/
def tocOf (w : List ℚ) : TorchOptConfig :=
  ⟨w, none, none, none, none, none, none⟩

lemma cornerOptimizer_length (call : OptimizeAcqfCall) :
    (cornerOptimizer call).length = call.q := by
  simp [cornerOptimizer]

lemma cornerOptimizer_inBounds (call : OptimizeAcqfCall)
    (hwf : ∀ b ∈ call.bounds, b.1 ≤ b.2) :
    ∀ p ∈ cornerOptimizer call, inBounds call.bounds p := by
  intro p hp
  have hpe : p = call.bounds.map Prod.fst := List.eq_of_mem_replicate hp
  subst hpe
  refine ⟨by simp, fun i hi => ?_⟩
  have hget : (call.bounds.map Prod.fst).getD i 0 =
      (call.bounds.getD i (0, 0)).1 := by
    rw [List.getD_eq_getElem?_getD, List.getD_eq_getElem?_getD,
      List.getElem?_map, List.getElem?_eq_getElem hi]
    rfl
  rw [hget]
  have hmem : call.bounds.getD i (0, 0) ∈ call.bounds := by
    rw [List.getD_eq_getElem?_getD, List.getElem?_eq_getElem hi]
    exact List.getElem_mem hi
  exact ⟨le_refl _, hwf _ hmem⟩

/-- C10: each runtime type-check utility is an identity with a raises-iff
contract: `not_none val message` returns `val` unchanged when `val` is not
`None` and raises `ValueError` (default or overridden message) exactly when
`val` is `None`; `checked_cast isinst val exception` returns `val`
unchanged (no conversion) when the instance check passes and raises (the
supplied exception, or `ValueError`) exactly when it fails. -/
theorem typeutils_identity_and_raise_iff :
    (∀ (α : Type) (v : α) (message : Option String),
        not_none (some v) message = Except.ok v) ∧
    (∀ (α : Type) (val : Option α) (message : Option String),
        ((∃ e, not_none val message = Except.error e) ↔ val = none)) ∧
    (∀ (α : Type) (message : Option String),
        not_none (none : Option α) message =
          Except.error (PyException.valueError
            (message.getD ("Argument to not_none was None.")))) ∧
    (∀ (α : Type) (isinst : α → Bool) (val : α)
        (exception : Option PyException),
        (isinst val = true → checked_cast isinst val exception = Except.ok val) ∧
        ((∃ e, checked_cast isinst val exception = Except.error e) ↔
          isinst val = false) ∧
        (isinst val = false → checked_cast isinst val exception =
          Except.error (exception.getD
            (PyException.valueError ("Value was not of type typ."))))) := by
  refine ⟨fun α v message => rfl, fun α val message => ?_, fun α message => rfl,
    fun α isinst val exception => ⟨fun h => ?_, ?_, fun h => ?_⟩⟩
  · cases val with
    | none => exact Iff.intro (fun _ => rfl) (fun _ => ⟨_, rfl⟩)
    | some v =>
        refine Iff.intro (fun he => ?_) (fun h => by simp at h)
        obtain ⟨e, he⟩ := he
        simp [not_none] at he
  · simp [checked_cast, h]
  · constructor
    · intro ⟨e, he⟩
      cases hc : isinst val with
      | false => rfl
      | true => rw [checked_cast.eq_def, if_pos hc] at he; exact absurd he (by simp)
    · intro h
      refine ⟨exception.getD (PyException.valueError ("Value was not of type typ.")), ?_⟩
      rw [checked_cast.eq_def, if_neg (by simp [h])]
      cases exception <;> rfl
  · rw [checked_cast.eq_def, if_neg (by simp [h])]
    cases exception <;> rfl

/-- Witness for C10 at concrete inputs. -/
theorem typeutils_identity_and_raise_iff_witness :
    not_none (some (5 : Nat)) none = Except.ok 5 ∧
    checked_cast (fun n : Nat => decide (n < 3)) 2 none = Except.ok 2 ∧
    (∃ e, checked_cast (fun n : Nat => decide (n < 3)) 7 none =
      Except.error e) :=
  ⟨typeutils_identity_and_raise_iff.1 Nat 5 none,
   (typeutils_identity_and_raise_iff.2.2.2 Nat (fun n => decide (n < 3))
     2 none).1 (by decide),
   (typeutils_identity_and_raise_iff.2.2.2 Nat (fun n => decide (n < 3))
     7 none).2.1.mpr (by decide)⟩

/-- C3: when target fidelities are non-empty and no fidelity weights are
supplied, `_instantiate_MES` defaults every fidelity feature's weight to
`1.0` and succeeds; when fidelity weights are supplied with a key set that
differs from the target-fidelity key set, it raises `RuntimeError` and no
acquisition function is built. -/
theorem instantiate_MES_default_weights_and_mismatch (model : Model)
    (cs : List Point) (nf nmv nys : Nat) (xp : Option (List Point))
    (mx : Bool) (nto : Nat) (tf w : FidelityDict) (ci : ℚ)
    (htf : tf ≠ []) :
    (∃ a, _instantiate_MES model cs nf nmv nys xp mx nto (some tf) none ci =
        Except.ok a ∧ a.isMultiFidelity = true ∧
        a.fidelityWeightsUsed = some (tf.map (fun p => (p.1, (1 : ℚ))))) ∧
    (keySetEq (dictKeys tf) (dictKeys w) = false →
      _instantiate_MES model cs nf nmv nys xp mx nto (some tf) (some w) ci =
        Except.error (PyException.runtimeError
          ("Must provide the same indices for target_fidelities and fidelity_weights."))) := by
  have hemp : tf.isEmpty = false := by
    cases tf with
    | nil => exact absurd rfl htf
    | cons p l => rfl
  constructor
  · obtain ⟨a, ha⟩ := instantiate_MES_ok model cs nf nmv nys xp mx nto tf
      none ci rfl
    have hinv := instantiate_MES_ok_inv model cs nf nmv nys xp mx nto tf
      none ci a ha
    have hmf : a.isMultiFidelity = true := by rw [hinv.2.1, hemp]; rfl
    exact ⟨a, ha, hmf, (hinv.2.2 hmf).2⟩
  · intro hne
    unfold _instantiate_MES
    have hdt : dictTruthy (some tf) = true := by simp [dictTruthy, hemp]
    rw [hdt]
    simp [hne]

/-- Witness for C3: target fidelities `{2: 1.0}` with no fidelity weights
defaults to weights `{2: 1.0}` and succeeds; disjoint weights `{3: 0.5}`
raise RuntimeError. -/
theorem instantiate_MES_default_weights_and_mismatch_witness :
    (∃ a, _instantiate_MES ⟨[0]⟩ [] 16 10 128 none true 0 (some [(2, 1)])
        none 1 = Except.ok a ∧ a.isMultiFidelity = true ∧
        a.fidelityWeightsUsed = some [(2, 1)]) ∧
    _instantiate_MES ⟨[0]⟩ [] 16 10 128 none true 0 (some [(2, 1)])
        (some [(3, 1/2)]) 1 =
      Except.error (PyException.runtimeError
        ("Must provide the same indices for target_fidelities and fidelity_weights.")) := by
  have h := instantiate_MES_default_weights_and_mismatch ⟨[0]⟩ [] 16 10 128
    none true 0 [(2, 1)] [(3, 1/2)] 1 (by decide)
  exact ⟨h.1, h.2 (by decide)⟩

/-- C1 (counterexample): with empty objective weights (length 0, hence not
length 1) and no constraints, `gen` does not raise `UnsupportedError` (it
fails later with an IndexError), so "raises iff length differs from 1" is
false as stated. -/
theorem gen_unsupported_iff_length_one_cex :
    ¬ (raisesUnsupported (gen mesSelf zeroSampler cornerOptimizer 1 ssdPlain
        (tocOf [])).result = true ↔
       ((tocOf []).linear_constraints.isSome = true ∨
        (tocOf []).outcome_constraints.isSome = true ∨
        (tocOf []).objective_weights.length ≠ 1)) := by decide

/-- C1 (amended): `gen` raises `UnsupportedError` exactly when linear
constraints are present, outcome constraints are present, or the objective
weights have length greater than one (a length of zero does not raise this
error; the call fails later with an IndexError instead). -/
theorem gen_unsupported_iff_constraints_or_multioutcome
    (self : MaxValueEntropySearchState) (sampler : Nat → Nat → List Point)
    (optimizer : OptimizeAcqfCall → List Point) (n : Nat)
    (ssd : SearchSpaceDigest) (toc : TorchOptConfig) :
    raisesUnsupported (gen self sampler optimizer n ssd toc).result = true ↔
      (toc.linear_constraints.isSome = true ∨
       toc.outcome_constraints.isSome = true ∨
       1 < toc.objective_weights.length) := by
  by_cases hb : (toc.linear_constraints.isSome
      || toc.outcome_constraints.isSome) = true
  · have hr : raisesUnsupported (gen self sampler optimizer n ssd
        toc).result = true := by
      unfold gen; rw [if_pos hb]; rfl
    simp only [hr, true_iff]
    rcases Bool.or_eq_true_iff.mp hb with h | h
    · exact Or.inl h
    · exact Or.inr (Or.inl h)
  · have h1 : toc.linear_constraints = none := by
      cases hc : toc.linear_constraints with
      | none => rfl
      | some u => exact absurd (by rw [hc]; simp) hb
    have h2 : toc.outcome_constraints = none := by
      cases hc : toc.outcome_constraints with
      | none => rfl
      | some u => exact absurd (by rw [hc]; simp) hb
    by_cases hlen : 1 < toc.objective_weights.length
    · have hr : raisesUnsupported (gen self sampler optimizer n ssd
          toc).result = true := by
        unfold gen; rw [if_neg hb, if_pos hlen]; rfl
      simp [hr, hlen]
    · rw [gen_eq_genBody self sampler optimizer n ssd toc h1 h2 (by omega)]
      rw [genBody_not_unsupported self sampler optimizer n ssd toc]
      simp [h1, h2, hlen]

/-- C6: with linear constraints present, `gen` raises `UnsupportedError`
before any work: the candidate-set sampler is never invoked and no model
subsetting is done (the collaborator-call trace is free of both events). -/
theorem gen_linear_constraints_fail_fast
    (self : MaxValueEntropySearchState) (sampler : Nat → Nat → List Point)
    (optimizer : OptimizeAcqfCall → List Point) (n : Nat)
    (ssd : SearchSpaceDigest) (toc : TorchOptConfig)
    (h : toc.linear_constraints.isSome = true) :
    raisesUnsupported (gen self sampler optimizer n ssd toc).result = true ∧
      Event.sample_candidate_set ∉
        (gen self sampler optimizer n ssd toc).events ∧
      Event.subset_model_call ∉
        (gen self sampler optimizer n ssd toc).events := by
  have hb : (toc.linear_constraints.isSome
      || toc.outcome_constraints.isSome) = true := by simp [h]
  have hg : gen self sampler optimizer n ssd toc =
      ⟨[], self, Except.error (PyException.unsupportedError
        ("Constraints are not yet supported by max-value entropy search!"))⟩ := by
    unfold gen; rw [if_pos hb]
  rw [hg]
  exact ⟨rfl, by simp, by simp⟩

/-- Witness for C6 at a concrete constrained configuration. -/
theorem gen_linear_constraints_fail_fast_witness :
    raisesUnsupported (gen mesSelf zeroSampler cornerOptimizer 1 ssdPlain
      ⟨[1], none, some (), none, none, none, none⟩).result = true ∧
    Event.sample_candidate_set ∉ (gen mesSelf zeroSampler cornerOptimizer 1
      ssdPlain ⟨[1], none, some (), none, none, none, none⟩).events ∧
    Event.subset_model_call ∉ (gen mesSelf zeroSampler cornerOptimizer 1
      ssdPlain ⟨[1], none, some (), none, none, none, none⟩).events :=
  gen_linear_constraints_fail_fast mesSelf zeroSampler cornerOptimizer 1
    ssdPlain ⟨[1], none, some (), none, none, none, none⟩ rfl

/-- C2: for a valid single-objective configuration (no constraints, one
nonzero objective weight, fidelity weights passing the key-set check), a
configuration with no fidelity features builds the standard
(non-cost-aware) `qMaxValueEntropy` acquisition function, and a
configuration with at least one fidelity feature (each having, per the
data-model invariant, an entry in the target-value mapping) builds the
cost-aware multi-fidelity `qMultiFidelityMaxValueEntropy` variant. -/
theorem gen_fidelity_variant_dispatch
    (self : MaxValueEntropySearchState) (sampler : Nat → Nat → List Point)
    (optimizer : OptimizeAcqfCall → List Point) (n : Nat)
    (ssd : SearchSpaceDigest) (toc : TorchOptConfig) (w : ℚ)
    (h1 : toc.linear_constraints = none)
    (h2 : toc.outcome_constraints = none)
    (hw : toc.objective_weights = [w]) (hw0 : w ≠ 0)
    (hfid : fidelityWeightsOk ssd toc = true) :
    (ssd.fidelity_features = [] →
      ∃ out, (gen self sampler optimizer n ssd toc).result = Except.ok out ∧
        out.acqf.isMultiFidelity = false) ∧
    (ssd.fidelity_features ≠ [] →
      (∀ k ∈ ssd.fidelity_features, k ∈ dictKeys ssd.target_values) →
      ∃ out, (gen self sampler optimizer n ssd toc).result = Except.ok out ∧
        out.acqf.isMultiFidelity = true) := by
  obtain ⟨acqf, ha, hres⟩ := gen_valid_run self sampler optimizer n ssd toc w
    h1 h2 hw hw0 hfid
  unfold genAcqf at ha
  have hinv := instantiate_MES_ok_inv _ _ _ _ _ _ _ _ _ _ _ _ ha
  constructor
  · intro hnf
    refine ⟨_, hres, ?_⟩
    rw [hinv.2.1, targetFidelitiesOf_no_features ssd hnf]
    rfl
  · intro hne hall
    obtain ⟨k, hk⟩ := List.exists_mem_of_ne_nil ssd.fidelity_features hne
    have htf : targetFidelitiesOf ssd ≠ [] :=
      targetFidelitiesOf_ne_nil ssd k hk (hall k hk)
    refine ⟨_, hres, ?_⟩
    rw [hinv.2.1]
    cases hc : targetFidelitiesOf ssd with
    | nil => exact absurd hc htf
    | cons p l => rfl

/-- Witness for C2: a one-dimensional multi-fidelity configuration builds
the cost-aware variant. -/
theorem gen_fidelity_variant_dispatch_witness :
    ∃ out, (gen mesSelf zeroSampler cornerOptimizer 1 ssdFid
        (tocOf [1])).result = Except.ok out ∧
      out.acqf.isMultiFidelity = true := by
  have h := gen_fidelity_variant_dispatch mesSelf zeroSampler cornerOptimizer
    1 ssdFid (tocOf [1]) 1 rfl rfl rfl one_ne_zero (by decide)
  exact h.2 (by decide) (by decide)

/-- C7: for every valid configuration (no constraints, compatible fidelity
weights), `objective_weights = [1]` yields an acquisition function built
with `maximize = True`, and `objective_weights = [-1]` yields one built
with `maximize = False`. -/
theorem gen_objective_sign_handling
    (self : MaxValueEntropySearchState) (sampler : Nat → Nat → List Point)
    (optimizer : OptimizeAcqfCall → List Point) (n : Nat)
    (ssd : SearchSpaceDigest) (toc : TorchOptConfig)
    (h1 : toc.linear_constraints = none)
    (h2 : toc.outcome_constraints = none)
    (hfid : fidelityWeightsOk ssd toc = true) :
    (toc.objective_weights = [1] →
      ∃ out, (gen self sampler optimizer n ssd toc).result = Except.ok out ∧
        out.acqf.maximizeFlag = true) ∧
    (toc.objective_weights = [-1] →
      ∃ out, (gen self sampler optimizer n ssd toc).result = Except.ok out ∧
        out.acqf.maximizeFlag = false) := by
  constructor
  · intro hw
    obtain ⟨acqf, ha, hres⟩ := gen_valid_run self sampler optimizer n ssd toc
      1 h1 h2 hw one_ne_zero hfid
    unfold genAcqf at ha
    have hinv := instantiate_MES_ok_inv _ _ _ _ _ _ _ _ _ _ _ _ ha
    refine ⟨_, hres, ?_⟩
    rw [hinv.1]
    decide
  · intro hw
    obtain ⟨acqf, ha, hres⟩ := gen_valid_run self sampler optimizer n ssd toc
      (-1) h1 h2 hw (by norm_num) hfid
    unfold genAcqf at ha
    have hinv := instantiate_MES_ok_inv _ _ _ _ _ _ _ _ _ _ _ _ ha
    refine ⟨_, hres, ?_⟩
    rw [hinv.1]
    decide

/-- Witness for C7 at concrete maximizing and minimizing configurations. -/
theorem gen_objective_sign_handling_witness :
    (∃ out, (gen mesSelf zeroSampler cornerOptimizer 1 ssdPlain
        (tocOf [1])).result = Except.ok out ∧
      out.acqf.maximizeFlag = true) ∧
    (∃ out, (gen mesSelf zeroSampler cornerOptimizer 1 ssdPlain
        (tocOf [-1])).result = Except.ok out ∧
      out.acqf.maximizeFlag = false) :=
  ⟨(gen_objective_sign_handling mesSelf zeroSampler cornerOptimizer 1
      ssdPlain (tocOf [1]) rfl rfl (by decide)).1 rfl,
   (gen_objective_sign_handling mesSelf zeroSampler cornerOptimizer 1
      ssdPlain (tocOf [-1]) rfl rfl (by decide)).2 rfl⟩

/-- C8: whenever `gen` succeeds, the acquisition function was built with
`maximize = True` exactly when the (possibly subset) objective weight at
index 0 equals 1; any other weight (for example 2 or 1/2) yields
`maximize = False`. -/
theorem gen_maximize_iff_subset_weight_one
    (self : MaxValueEntropySearchState) (sampler : Nat → Nat → List Point)
    (optimizer : OptimizeAcqfCall → List Point) (n : Nat)
    (ssd : SearchSpaceDigest) (toc : TorchOptConfig) (out : GenOutput)
    (hok : (gen self sampler optimizer n ssd toc).result = Except.ok out) :
    (out.acqf.maximizeFlag = true ↔
      out.objective_weights_used.get? 0 = some 1) := by
  obtain ⟨h1, h2, h3, w0, acqf, hw, ha, hout⟩ :=
    gen_ok_inv self sampler optimizer n ssd toc out hok
  subst hout
  unfold genAcqf at ha
  have hinv := instantiate_MES_ok_inv _ _ _ _ _ _ _ _ _ _ _ _ ha
  dsimp only
  rw [hinv.1, hw]
  constructor
  · intro hd
    rw [of_decide_eq_true hd]
  · intro hs
    exact decide_eq_true (Option.some.inj hs)

/-- Witness for C8: a positive non-unit weight (2) yields a minimizing
acquisition function. -/
theorem gen_maximize_iff_subset_weight_one_witness :
    ∃ out, (gen mesSelf zeroSampler cornerOptimizer 1 ssdPlain
        (tocOf [2])).result = Except.ok out ∧
      (out.acqf.maximizeFlag = true ↔
        out.objective_weights_used.get? 0 = some 1) :=
  ⟨⟨[[0]], [1], MESAcqf.qMaxValueEntropy ⟨[0]⟩ [] 16 10 128 none false,
      ⟨[0]⟩, [2]⟩, by decide,
    gen_maximize_iff_subset_weight_one mesSelf zeroSampler cornerOptimizer 1
      ssdPlain (tocOf [2]) _ (by decide)⟩

/-- C5: under the external optimizer's contract (it returns exactly `q`
points, inside the box when the box is well-formed), a successful `gen`
call returns exactly `n` points, each within the supplied per-dimension
bounds, together with exactly `n` weights all equal to `1.0`. -/
theorem gen_returns_n_points_unit_weights
    (self : MaxValueEntropySearchState) (sampler : Nat → Nat → List Point)
    (optimizer : OptimizeAcqfCall → List Point) (n : Nat)
    (ssd : SearchSpaceDigest) (toc : TorchOptConfig) (out : GenOutput)
    (hqlen : ∀ call, (optimizer call).length = call.q)
    (hqb : ∀ call, (∀ b ∈ call.bounds, b.1 ≤ b.2) →
      ∀ p ∈ optimizer call, inBounds call.bounds p)
    (hwf : ∀ b ∈ ssd.bounds, b.1 ≤ b.2)
    (hok : (gen self sampler optimizer n ssd toc).result = Except.ok out) :
    out.points.length = n ∧ (∀ p ∈ out.points, inBounds ssd.bounds p) ∧
      out.weights.length = n ∧ (∀ wgt ∈ out.weights, wgt = 1) := by
  obtain ⟨h1, h2, h3, w0, acqf, hw, ha, hout⟩ :=
    gen_ok_inv self sampler optimizer n ssd toc out hok
  subst hout
  refine ⟨hqlen (genOptCall ssd toc n acqf), ?_, by simp, ?_⟩
  · intro p hp
    exact hqb (genOptCall ssd toc n acqf) hwf p hp
  · intro wgt hwgt
    exact List.eq_of_mem_replicate hwgt

/-- Witness for C5: a concrete three-point run with the corner optimizer. -/
theorem gen_returns_n_points_unit_weights_witness :
    ∃ out, (gen mesSelf zeroSampler cornerOptimizer 3 ssdPlain
        (tocOf [1])).result = Except.ok out ∧
      out.points.length = 3 ∧ (∀ p ∈ out.points, inBounds ssdPlain.bounds p) ∧
      out.weights.length = 3 ∧ (∀ wgt ∈ out.weights, wgt = 1) :=
  ⟨⟨[[0], [0], [0]], [1, 1, 1],
      MESAcqf.qMaxValueEntropy ⟨[0]⟩ [] 16 10 128 none true, ⟨[0]⟩, [1]⟩,
    by decide,
    gen_returns_n_points_unit_weights mesSelf zeroSampler cornerOptimizer 3
      ssdPlain (tocOf [1]) _ cornerOptimizer_length cornerOptimizer_inBounds
      (by decide) (by decide)⟩

/-- C9: `gen` never mutates the object state (in particular the original
surrogate model is untouched by the subsetting step), and when subsetting
is disabled via the `subset_model` option, the model and the objective
weights are used exactly as supplied. -/
theorem gen_frame_and_subset_passthrough
    (self : MaxValueEntropySearchState) (sampler : Nat → Nat → List Point)
    (optimizer : OptimizeAcqfCall → List Point) (n : Nat)
    (ssd : SearchSpaceDigest) (toc : TorchOptConfig) :
    (gen self sampler optimizer n ssd toc).state = self ∧
    ((genOptionsOf toc).subset_model.getD true = false →
      ∀ out, (gen self sampler optimizer n ssd toc).result = Except.ok out →
        out.model_used = self.model ∧
        out.objective_weights_used = toc.objective_weights) := by
  refine ⟨gen_state self sampler optimizer n ssd toc, fun hdis out hok => ?_⟩
  obtain ⟨h1, h2, h3, w0, acqf, hw, ha, hout⟩ :=
    gen_ok_inv self sampler optimizer n ssd toc out hok
  subst hout
  rw [genSubsetStage_disabled self toc hdis]
  exact ⟨rfl, rfl⟩

/-- Witness for C9: a concrete run with subsetting disabled passes the
model and the weights through unchanged. -/
theorem gen_frame_and_subset_passthrough_witness :
    (gen mesSelf zeroSampler cornerOptimizer 1 ssdPlain
      ⟨[2], none, none, none, none,
        some ⟨none, none, some false, none, none⟩, none⟩).state = mesSelf ∧
    ∃ out, (gen mesSelf zeroSampler cornerOptimizer 1 ssdPlain
        ⟨[2], none, none, none, none,
          some ⟨none, none, some false, none, none⟩, none⟩).result =
        Except.ok out ∧
      out.model_used = mesSelf.model ∧ out.objective_weights_used = [2] :=
  ⟨(gen_frame_and_subset_passthrough mesSelf zeroSampler cornerOptimizer 1
      ssdPlain ⟨[2], none, none, none, none,
        some ⟨none, none, some false, none, none⟩, none⟩).1,
    ⟨⟨[[0]], [1], MESAcqf.qMaxValueEntropy ⟨[0]⟩ [] 16 10 128 none false,
        ⟨[0]⟩, [2]⟩, by decide,
      (gen_frame_and_subset_passthrough mesSelf zeroSampler cornerOptimizer 1
        ssdPlain ⟨[2], none, none, none, none,
          some ⟨none, none, some false, none, none⟩, none⟩).2 rfl _
        (by decide)⟩⟩

/-- A configuration that supplies `num_trace_observations`,
`fidelity_weights` and `subset_model` only inside the nested
`acquisition_function_kwargs` dict (as the interface documentation places
them), not at the top level of `model_gen_options`. -/
def tocNested : TorchOptConfig :=
  ⟨[1], none, none, none, none,
    some ⟨some ⟨none, none, none, none, some 7, some [(3, 1/2)], some false⟩,
      none, none, none, none⟩, none⟩

/-- A configuration that supplies `num_trace_observations = 5` and
`fidelity_weights = {0: 3}` at the top level of `model_gen_options`. -/
def tocTopLevel : TorchOptConfig :=
  ⟨[1], none, none, none, none,
    some ⟨none, none, none, some 5, some [(0, 3)]⟩, none⟩

/-- C4 (counterexample): values of `num_trace_observations`,
`fidelity_weights` and `subset_model` placed inside
`model_gen_options["acquisition_function_kwargs"]` are ignored by `gen`:
with nested `num_trace_observations = 7`, `fidelity_weights = {3: 0.5}`
(whose keys do not match the target fidelities) and
`subset_model = False`, the run still subsets the model, builds the
expander with 0 trace observations and the cost model with the defaulted
weights `{0: 1.0}`, and raises no error. -/
theorem gen_nested_acqf_option_keys_ignored_cex :
    (genAcfOptions tocNested).num_trace_observations = some 7 ∧
    (genAcfOptions tocNested).subset_model = some false ∧
    (genAcfOptions tocNested).fidelity_weights = some [(3, 1/2)] ∧
    ∃ out, (gen mesSelf zeroSampler cornerOptimizer 1 ssdFid
        tocNested).result = Except.ok out ∧
      out.acqf.numTraceObs = some 0 ∧ out.acqf.numTraceObs ≠ some 7 ∧
      Event.subset_model_call ∈ (gen mesSelf zeroSampler cornerOptimizer 1
        ssdFid tocNested).events ∧
      out.acqf.fidelityWeightsUsed = some [(0, 1)] ∧
      out.acqf.fidelityWeightsUsed ≠ some [(3, 1/2)] :=
  ⟨rfl, rfl, rfl,
    ⟨⟨[[0]], [1], MESAcqf.qMultiFidelityMaxValueEntropy ⟨[0]⟩ [] 16 10 128
        none true ⟨⟨[(0, 1)], 1⟩⟩ ⟨[(0, 1)]⟩ ⟨[0], 0⟩, ⟨[0]⟩, [1]⟩,
      by decide⟩⟩

/-- C4 (amended): the option keys `num_trace_observations` (default 0),
`fidelity_weights` (default `None`) and `subset_model` (default `True`)
are read from the top level of `config.model_gen_options` — not from the
nested `acquisition_function_kwargs` dict — and those top-level values are
what `gen` uses to control trace observations, the cost model's fidelity
weights, and model subsetting. -/
theorem gen_reads_options_from_top_level
    (self : MaxValueEntropySearchState) (sampler : Nat → Nat → List Point)
    (optimizer : OptimizeAcqfCall → List Point) (n : Nat)
    (ssd : SearchSpaceDigest) (toc : TorchOptConfig) (out : GenOutput)
    (hok : (gen self sampler optimizer n ssd toc).result = Except.ok out) :
    (Event.subset_model_call ∈
        (gen self sampler optimizer n ssd toc).events ↔
      (genOptionsOf toc).subset_model.getD true = true) ∧
    (out.acqf.isMultiFidelity = true →
      out.acqf.numTraceObs =
        some ((genOptionsOf toc).num_trace_observations.getD 0) ∧
      out.acqf.fidelityWeightsUsed =
        some (resolveFidelityWeights (targetFidelitiesOf ssd)
          ((genOptionsOf toc).fidelity_weights))) := by
  obtain ⟨h1, h2, h3, w0, acqf, hw, ha, hout⟩ :=
    gen_ok_inv self sampler optimizer n ssd toc out hok
  have hgen := gen_eq_genBody self sampler optimizer n ssd toc h1 h2 h3
  have hrun := genBody_run_ok self sampler optimizer n ssd toc w0 acqf hw ha
  constructor
  · rw [hgen, hrun]
    simp only [List.mem_append]
    constructor
    · intro hmem
      rcases hmem with (hmem | hmem) | hmem
      · exact (genSubsetStage_event_iff self toc).mp hmem
      · simp at hmem
      · simp at hmem
    · intro htop
      exact Or.inl (Or.inl ((genSubsetStage_event_iff self toc).mpr htop))
  · subst hout
    intro hmf
    unfold genAcqf at ha
    have hinv := instantiate_MES_ok_inv _ _ _ _ _ _ _ _ _ _ _ _ ha
    exact hinv.2.2 hmf

/-- Witness for the amended C4: top-level `num_trace_observations = 5` and
`fidelity_weights = {0: 3}` are the values used. -/
theorem gen_reads_options_from_top_level_witness :
    ∃ out, (gen mesSelf zeroSampler cornerOptimizer 1 ssdFid
        tocTopLevel).result = Except.ok out ∧
      Event.subset_model_call ∈ (gen mesSelf zeroSampler cornerOptimizer 1
        ssdFid tocTopLevel).events ∧
      out.acqf.numTraceObs = some 5 ∧
      out.acqf.fidelityWeightsUsed = some [(0, 3)] := by
  have h := gen_reads_options_from_top_level mesSelf zeroSampler
    cornerOptimizer 1 ssdFid tocTopLevel
    ⟨[[0]], [1], MESAcqf.qMultiFidelityMaxValueEntropy ⟨[0]⟩ [] 16 10 128
      none true ⟨⟨[(0, 3)], 1⟩⟩ ⟨[(0, 1)]⟩ ⟨[0], 5⟩, ⟨[0]⟩, [1]⟩ (by decide)
  exact ⟨_, by decide, h.1.mpr rfl, (h.2 (by decide)).1, (h.2 (by decide)).2⟩
